import Mathlib

/-!
Verification of the unified-scraper-actor workflow engine.

The JavaScript sources are embedded shallowly: browser/network behaviour is
abstracted into explicit "world" records (what each page query returns, what
each download attempt does), and every handler becomes a pure function from
such a world to the list of emitted events together with its outcome
(`Except RunErr result`), mirroring the control flow of the source
line by line.  The source files referenced below hold two concatenated
revisions of some handlers; both revisions are embedded where they differ
(content-type computation).
-/

namespace UnifiedScraper

/-- Truthiness of an optional string, as JavaScript coerces it in
`if (runId)` / `if (!user)`: absent and empty strings are falsy. -/
def truthy : Option String → Bool
  | none => false
  | some s => !s.isEmpty

/-- A credential read from the environment is missing when the variable is
unset or empty (JS `!user || !password`). -/
def credMissing (v : Option String) : Bool := !truthy v

/-- The whitespace characters `String.prototype.trim` strips (the ASCII ones
suffice for the embedded pages). -/
def jsWs (c : Char) : Bool := c = ' ' || c = '\t' || c = '\n' || c = '\r'

/-- JS `s.trim()`. -/
def jsTrim (s : String) : String :=
  String.mk (((s.data.dropWhile jsWs).reverse.dropWhile jsWs).reverse)

/-- JS `s.toLowerCase()` (ASCII range, all the source compares against). -/
def jsToLower (s : String) : String := String.mk (s.data.map Char.toLower)

/-- Is `pat` a prefix of `l`? -/
def isPfx : List Char → List Char → Bool
  | [], _ => true
  | _ :: _, [] => false
  | p :: ps, c :: cs => p = c && isPfx ps cs

/-- JS `s.endsWith(pat)`. -/
def jsEndsWith (s pat : String) : Bool :=
  isPfx pat.data.reverse s.data.reverse

/-- The part before and the part after the first occurrence of `sep`, when
`sep` occurs. -/
def splitFirst (sep : List Char) : List Char → Option (List Char × List Char)
  | [] => none
  | c :: rest =>
    if isPfx sep (c :: rest) then some ([], (c :: rest).drop sep.length)
    else
      match splitFirst sep rest with
      | some (pre, post) => some (c :: pre, post)
      | none => none

/-- Fuelled splitting loop; the fuel `length + 1` always suffices for the
non-empty separators the source uses. -/
def jsSplitGo (sep : List Char) : Nat → List Char → List (List Char)
  | 0, l => [l]
  | fuel + 1, l =>
    match splitFirst sep l with
    | none => [l]
    | some (pre, post) => pre :: jsSplitGo sep fuel post

/-- JS `s.split(sep)` for non-empty separators: always a non-empty list,
`"".split(sep) = [""]`. -/
def jsSplit (s sep : String) : List String :=
  (jsSplitGo sep.data (s.data.length + 1) s.data).map String.mk

/-- Substring test used to model the cheerio selector `td:contains(label)`
(for the non-empty labels the handlers use). -/
def hasSub (s pat : String) : Bool := (jsSplit s pat).length != 1

/-- Result of JavaScript `Number(...)` on the string fragment the scraper
feeds it (already trimmed cell text): empty string parses to 0, an optional
sign followed by digits parses to that integer, anything else is NaN. -/
inductive JsNum
  | nan
  | num (n : Int)
deriving DecidableEq, Repr

/-- Digit-run parse accumulating left to right. -/
def parseDigitsGo : List Char → Nat → Option Nat
  | [], acc => some acc
  | c :: rest, acc =>
    if c.isDigit then parseDigitsGo rest (acc * 10 + (c.toNat - 48)) else none

/-- Parse of a non-empty all-digit string. -/
def parseDigits : List Char → Option Nat
  | [] => none
  | l => parseDigitsGo l 0

/-- Optional leading minus, then digits. -/
def parseIntChars : List Char → Option Int
  | '-' :: rest => (parseDigits rest).map fun n => -(n : Int)
  | l => (parseDigits l).map fun n => (n : Int)

/-- JS `Number` on trimmed cell text, restricted to the integer-literal
fragment (`Number("") = 0`; non-numeric text gives NaN). -/
def jsNumber (s : String) : JsNum :=
  if s.data = [] then .num 0
  else
    match parseIntChars s.data with
    | some n => .num n
    | none => .nan

/-- Key-value-store record URL built by the handlers
(`https://api.apify.com/v2/key-value-stores/STORE/records/NAME`). -/
def recordUrl (storeId name : String) : String :=
  "https://api.apify.com/v2/key-value-stores/" ++ storeId ++ "/records/" ++ name

/-! ### Content-type inference

Three inline computations exist in the source:
* `hrContentTypeV1` — hrCockpitHandler.js lines 241-245 (earlier revision of
  `downloadWithRetry`): `fileName.endsWith("pdf") ? pdf : pptx`.
* `hrContentTypeV2` — hrCockpitHandler.js lines 627-671 (later revision):
  switch over the lower-cased last extension.
* `pvContentType` — profilingValuesHandler.js lines 277-320: the same switch,
  listed in a different case order.
-/

/-- The extension used by the switch versions:
`fileName.toLowerCase().split(".").pop()`. -/
def extOf (fileName : String) : String :=
  (jsSplit (jsToLower fileName) ".").getLastD ""

/-- Content type in the earlier hrCockpit `downloadWithRetry`
(hrCockpitHandler.js lines 241-245). -/
def hrContentTypeV1 (fileName : String) : String :=
  if jsEndsWith fileName "pdf" then "application/pdf"
  else "application/vnd.openxmlformats-officedocument.presentationml.presentation"

/-- Content type in the later hrCockpit `downloadWithRetry`
(hrCockpitHandler.js lines 627-671), transcribed in source case order. -/
def hrContentTypeV2 (fileName : String) : String :=
  let e := extOf fileName
  if e = "pdf" then "application/pdf"
  else if e = "pptx" then "application/vnd.openxmlformats-officedocument.presentationml.presentation"
  else if e = "ppt" then "application/vnd.ms-powerpoint"
  else if e = "docx" then "application/vnd.openxmlformats-officedocument.wordprocessingml.document"
  else if e = "doc" then "application/msword"
  else if e = "xlsx" then "application/vnd.openxmlformats-officedocument.spreadsheetml.sheet"
  else if e = "xls" then "application/vnd.ms-excel"
  else if e = "csv" then "text/csv"
  else if e = "json" then "application/json"
  else if e = "txt" then "text/plain"
  else if e = "xml" then "application/xml"
  else if e = "html" then "text/html"
  else if e = "htm" then "text/html"
  else "application/octet-stream"

/-- Content type in `downloadAndUpload`
(profilingValuesHandler.js lines 277-320), transcribed in source case order. -/
def pvContentType (fileName : String) : String :=
  let e := extOf fileName
  if e = "csv" then "text/csv"
  else if e = "pdf" then "application/pdf"
  else if e = "pptx" then "application/vnd.openxmlformats-officedocument.presentationml.presentation"
  else if e = "ppt" then "application/vnd.ms-powerpoint"
  else if e = "xlsx" then "application/vnd.openxmlformats-officedocument.spreadsheetml.sheet"
  else if e = "xls" then "application/vnd.ms-excel"
  else if e = "docx" then "application/vnd.openxmlformats-officedocument.wordprocessingml.document"
  else if e = "doc" then "application/msword"
  else if e = "json" then "application/json"
  else if e = "txt" then "text/plain"
  else if e = "xml" then "application/xml"
  else if e = "html" then "text/html"
  else if e = "htm" then "text/html"
  else "application/octet-stream"

/-! ### Retry wrappers

An operation is modelled as a function from the (1-based) attempt number to
its outcome.  A run of a wrapper records the final result, how many failures
were logged, how many attempts were made, and the sleeps inserted between
attempts.
-/

instance exceptDecEq {E A : Type} [DecidableEq E] [DecidableEq A] :
    DecidableEq (Except E A) := fun x y =>
  match x, y with
  | .ok a, .ok b =>
    if h : a = b then .isTrue (by rw [h]) else .isFalse (fun hh => h (Except.ok.inj hh))
  | .error a, .error b =>
    if h : a = b then .isTrue (by rw [h]) else .isFalse (fun hh => h (Except.error.inj hh))
  | .ok _, .error _ => .isFalse (fun hh => Except.noConfusion hh)
  | .error _, .ok _ => .isFalse (fun hh => Except.noConfusion hh)

/-- Observable trace of one retry-wrapper run. -/
structure RetryTrace (A : Type) where
  result : Except String A
  failures : Nat
  attempts : Nat
  delays : List Nat
deriving DecidableEq, Repr

/-- Loop body of the hrCockpit retry helpers
(`for attempt = 1..maxRetries; on error log, rethrow when attempt = maxRetries,
else sleep a fixed delay`).  `fuel` is the number of attempts still allowed,
so the source condition `attempt === maxRetries` is `fuel = 1` here; `fuel = 0`
is the vacuous empty loop. -/
def retryFixedGo (op : Nat → Except String A) (delay : Nat) :
    Nat → Nat → RetryTrace A
  | _attempt, 0 => ⟨.error "no attempts", 0, 0, []⟩
  | attempt, fuel + 1 =>
    match op attempt with
    | .ok a => ⟨.ok a, 0, 1, []⟩
    | .error e =>
      if fuel = 0 then ⟨.error e, 1, 1, []⟩
      else
        let t := retryFixedGo op delay (attempt + 1) fuel
        ⟨t.result, t.failures + 1, t.attempts + 1, delay :: t.delays⟩

/-- `downloadWithRetry` (hrCockpitHandler.js lines 613-686): up to
`maxRetries` total attempts, a fixed 2000 ms sleep between attempts. -/
def downloadWithRetry (op : Nat → Except String A) (maxRetries : Nat) :
    RetryTrace A :=
  retryFixedGo op 2000 1 maxRetries

/-- `downloadCSVWithRetry` (hrCockpitHandler.js lines 691-746): same retry
skeleton as `downloadWithRetry`. -/
def downloadCSVWithRetry (op : Nat → Except String A) (maxRetries : Nat) :
    RetryTrace A :=
  retryFixedGo op 2000 1 maxRetries

/-- The `p-retry` library as invoked by profilingValuesHandler.js lines
145-151: `retries` is the number of RE-tries, so up to `retries + 1` total
attempts; `onFailedAttempt` runs on every failure; the sleep before the next
attempt is `minTimeout * factor ^ (attempt - 1)` with the library default
`factor = 2` (exponential backoff). -/
def pRetryGo (op : Nat → Except String A) (minTimeout factor : Nat) :
    Nat → Nat → RetryTrace A
  | attempt, 0 =>
    match op attempt with
    | .ok a => ⟨.ok a, 0, 1, []⟩
    | .error e => ⟨.error e, 1, 1, []⟩
  | attempt, rl + 1 =>
    match op attempt with
    | .ok a => ⟨.ok a, 0, 1, []⟩
    | .error _e =>
      let t := pRetryGo op minTimeout factor (attempt + 1) rl
      ⟨t.result, t.failures + 1, t.attempts + 1,
        minTimeout * factor ^ (attempt - 1) :: t.delays⟩

/-- `pRetry(op, { retries, minTimeout })` with the library default
`factor = 2`. -/
def pRetry (op : Nat → Except String A) (retries minTimeout : Nat) :
    RetryTrace A :=
  pRetryGo op minTimeout 2 1 retries

/-! ### Progress reporter (progressUtils.js)

The HTTP call is abstracted into a `FetchOutcome` argument (what `fetch`
would do); the functions return what they log and whether they let an
exception escape. -/

/-- Behaviour of the `fetch` call: the network throws, or a response with
the given HTTP status arrives (`response.ok` is status 200-299). -/
inductive FetchOutcome
  | netError (msg : String)
  | resp (status : Nat)
deriving DecidableEq, Repr

/-- Observable outcome of one progress-utils call. -/
structure SendOutcome where
  /-- Exception escaping to the caller, if any. -/
  raised : Option String
  /-- The request was actually issued. -/
  requestSent : Bool
  /-- `log.warn` fired (missing FRONT_URL / ACTOR_SECRET). -/
  warned : Bool
  /-- `log.error` fired (network error or non-2xx response). -/
  errorLogged : Bool
deriving DecidableEq, Repr

/-- `sendProgressUpdate` (progressUtils.js lines 16-48): skip with a warning
when FRONT_URL or ACTOR_SECRET is unset, log non-ok responses, catch and log
any fetch error. -/
def sendProgressUpdate (frontUrl actorSecret : Option String)
    (fetch : FetchOutcome) : SendOutcome :=
  if !truthy frontUrl || !truthy actorSecret then
    ⟨none, false, true, false⟩
  else
    match fetch with
    | .netError _ => ⟨none, true, false, true⟩
    | .resp status =>
      if 200 ≤ status ∧ status < 300 then ⟨none, true, false, false⟩
      else ⟨none, true, false, true⟩

/-- `sendErrorUpdate` (progressUtils.js lines 76-107): identical control
flow, FAILED status with an error message in the body. -/
def sendErrorUpdate (frontUrl actorSecret : Option String)
    (fetch : FetchOutcome) : SendOutcome :=
  if !truthy frontUrl || !truthy actorSecret then
    ⟨none, false, true, false⟩
  else
    match fetch with
    | .netError _ => ⟨none, true, false, true⟩
    | .resp status =>
      if 200 ≤ status ∧ status < 300 then ⟨none, true, false, false⟩
      else ⟨none, true, false, true⟩

/-! ### Run events and errors -/

/-- Progress status strings sent to the web UI. -/
inductive Status
  | starting
  | running
  | completed
  | failed
deriving DecidableEq, Repr

/-- Observable events of one handler run: step logs (`logStep`), progress
updates (`sendProgressUpdate`), page clicks, download attempts, error logs
and the final `Dataset.pushData`. -/
inductive Ev
  | stepLog (current total : Nat) (name : String)
  | progress (done total : Nat) (status : Status)
  | click (target : String)
  | download (name : String)
  | errLog (operation : String)
  | pushResult
deriving DecidableEq, Repr

/-- Progress update emitted only when `runId` is truthy (`if (runId)`). -/
def progressEvs (runId : Option String) (done total : Nat) (st : Status) :
    List Ev :=
  if truthy runId then [.progress done total st] else []

/-- The terminal errors a run can raise in the embedded fragments. -/
inductive RunErr
  | missingCredentials (codeType : String)
  | codeNotFound (code : String)
  | buttonCountChanged (expected found : Nat)
deriving DecidableEq, Repr

/-- Message text of the thrown `Error` (abridged transcription). -/
def runErrMsg : RunErr → String
  | .missingCredentials ct => "Missing credentials for " ++ ct
  | .codeNotFound c => "Code " ++ c ++ " not found in the test results table!"
  | .buttonCountChanged e f =>
    "Button count changed during iteration. Expected " ++ toString e
      ++ ", found " ++ toString f

/-- The record pushed by `failedRequestHandler` (main.js lines 95-115):
url, error message, and the original code, codeType and runId. -/
structure ErrorRecord where
  url : String
  error : String
  code : String
  codeType : String
  runId : Option String
deriving DecidableEq, Repr

/-- `failedRequestHandler`: builds the error record for a failed run. -/
def failedRequestRecord (code codeType : String) (runId : Option String)
    (url : String) (e : RunErr) : ErrorRecord :=
  ⟨url, runErrMsg e, code, codeType, runId⟩

/-! ### Variant registry (config.js) -/

/-- Login field selectors of a variant. -/
structure LoginSelector where
  user : String
  password : String
  submit : String
deriving DecidableEq, Repr

/-- One `WorkflowVariant` record of the static CONFIG table. -/
structure VariantConfig where
  name : String
  baseUrl : String
  navigationPath : String
  fileTypes : List String
  includeCSV : Bool
  loginSelector : LoginSelector
  envUser : String
  envPassword : String
deriving DecidableEq, Repr

/-- CONFIG.HR_COCKPIT (config.js lines 7-22). -/
def hrCockpitConfig : VariantConfig :=
  { name := "HR Cockpit - Standard"
    baseUrl := "https://wle2.constant-dialog.ch/admin.php"
    navigationPath := "Outvision: Persönlichkeitsanalyse Skills"
    fileTypes := ["Standard-Report", "Assessment-Report", "PPT-Report"]
    includeCSV := true
    loginSelector := ⟨"input[name=user]", "input[name=password]", "input[value=Login]"⟩
    envUser := "HR_COCKPIT_USER"
    envPassword := "HR_COCKPIT_PASSWORD" }

/-- CONFIG.HR_COCKPIT_SOLL (config.js lines 24-39). -/
def hrCockpitSollConfig : VariantConfig :=
  { hrCockpitConfig with
    name := "HR Cockpit - Soll Profile"
    navigationPath := "Outvision: SKILLS Soll-Profile" }

/-- CONFIG.PROFILING_VALUES (config.js lines 41-56). -/
def profilingValuesConfig : VariantConfig :=
  { name := "Profiling Values - Reports"
    baseUrl := "https://backoffice.profilingvalues.com/login.html"
    navigationPath := "default"
    fileTypes := ["all_reports"]
    includeCSV := false
    loginSelector := ⟨"input#loginname", "input[name=password]", "button#button_10"⟩
    envUser := "PROFILING_VALUES_USER"
    envPassword := "PROFILING_VALUES_PASSWORD" }

/-- CONFIG.PROFILING_VALUES_SOLL (config.js lines 58-73). -/
def profilingValuesSollConfig : VariantConfig :=
  { profilingValuesConfig with
    name := "Profiling Values - PAT Data"
    navigationPath := "PAT-Verwaltung"
    fileTypes := ["metadata_only"] }

/-! ### HR Cockpit handler (hrCockpitHandler.js, later revision lines 325-746)

The browser world: resolved credentials, how many table rows match the code,
one attempt-outcome function per DE download link (yielding the suggested
file name), and the attempt outcomes of the CSV-export flow. -/

/-- One report entry pushed into `result.reports` by the hrCockpit handler. -/
structure HrReport where
  name : String
  url : String
deriving DecidableEq, Repr

/-- The `result` record the hrCockpit handler persists. -/
structure HrResult where
  code : String
  codeType : String
  reports : List HrReport
deriving DecidableEq, Repr

/-- Abstracted environment of one hrCockpit run. -/
structure HrWorld where
  code : String
  codeType : String
  runId : Option String
  /-- `process.env[config.envCredentials.user]`. -/
  user : Option String
  /-- `process.env[config.envCredentials.password]`. -/
  password : Option String
  /-- Number of `tr:has-text(code)` rows found. -/
  codeRowCount : Nat
  /-- One entry per `td a:has-text(DE)` link: attempt number to download
  outcome (suggested file name on success). -/
  links : List (Nat → Except String String)
  /-- CSV-export attempt outcomes. -/
  csv : Nat → Except String String

/-- STEP 6 download loop (lines 483-519): per link, bump the counter, log the
step, run `downloadWithRetry` (3 attempts); a success appends a report and
sends a progress update, an exhausted retry logs the error and continues. -/
def hrLoop (storeId : String) (runId : Option String) (fileTypes : List String) :
    List (Nat → Except String String) → Nat → Nat → Nat → List Ev × List HrReport
  | [], _i, _current, _total => ([], [])
  | l :: rest, i, current, total =>
    let ft0 := fileTypes.getD i ""
    let fileType := if ft0 = "" then "Report-" ++ toString (i + 1) else ft0
    let current' := current + 1
    let evs1 := [Ev.stepLog current' total ("Download " ++ fileType),
      Ev.download fileType]
    let t := downloadWithRetry l 3
    match t.result with
    | .ok fn =>
      let tail := hrLoop storeId runId fileTypes rest (i + 1) current' total
      (evs1 ++ progressEvs runId current' total .running ++ tail.1,
        ⟨fileType, recordUrl storeId fn⟩ :: tail.2)
    | .error _ =>
      let tail := hrLoop storeId runId fileTypes rest (i + 1) current' total
      (evs1 ++ [Ev.errLog ("Download " ++ fileType)] ++ tail.1, tail.2)

/-- `handleHRCockpit` (lines 325-608).  Navigation waits are assumed to find
their elements (no claim concerns navigation timeouts); everything else
follows the source order: five fixed steps with an initial `totalSteps = 8`,
recomputation of `totalSteps` right after link discovery (line 480), the
download loop, the optional CSV step, and the save step. -/
def handleHRCockpit (cfg : VariantConfig) (storeId : String) (w : HrWorld) :
    List Ev × Except RunErr HrResult :=
  let evs1 := Ev.stepLog 1 8 "Login to HR Cockpit" ::
    progressEvs w.runId 1 8 .running
  if credMissing w.user || credMissing w.password then
    (evs1 ++ [Ev.errLog ("HR Cockpit processing for " ++ w.codeType)],
      .error (.missingCredentials w.codeType))
  else
    let evs2 := evs1 ++ [Ev.click cfg.loginSelector.submit]
      ++ (Ev.stepLog 2 8 "Navigate to administration area" ::
        progressEvs w.runId 2 8 .running)
      ++ [Ev.click "Gruppen verwalten"]
      ++ (Ev.stepLog 3 8 ("Navigate to " ++ cfg.navigationPath) ::
        progressEvs w.runId 3 8 .running)
      ++ [Ev.click cfg.navigationPath]
      ++ (Ev.stepLog 4 8 "Navigate to completed tests" ::
        progressEvs w.runId 4 8 .running)
      ++ [Ev.click "Abgeschlossene Tests ansehen"]
      ++ (Ev.stepLog 5 8 "Find download links" ::
        progressEvs w.runId 5 8 .running)
    if w.codeRowCount = 0 then
      (evs2 ++ [Ev.errLog ("HR Cockpit processing for " ++ w.codeType)],
        .error (.codeNotFound w.code))
    else
      let L := w.links.length
      let total := 4 + L + (if cfg.includeCSV then 1 else 0) + 1
      let loop := hrLoop storeId w.runId cfg.fileTypes w.links 0 5 total
      let afterLoop := 5 + L
      let csvStep :=
        if cfg.includeCSV then
          let current' := afterLoop + 1
          let head := [Ev.stepLog current' total "Download CSV evaluation data"]
          let t := downloadCSVWithRetry w.csv 3
          match t.result with
          | .ok fn =>
            (head ++ [Ev.download "Evaluate-daten"]
              ++ progressEvs w.runId current' total .running,
              [(⟨"Evaluate-daten", recordUrl storeId fn⟩ : HrReport)], current')
          | .error _ =>
            (head ++ [Ev.download "Evaluate-daten",
              Ev.errLog "Download CSV evaluation data"],
              ([] : List HrReport), current')
        else ([], [], afterLoop)
      let current'' := csvStep.2.2 + 1
      let evsSave := (Ev.stepLog current'' total "Save results to dataset" ::
          progressEvs w.runId current'' total .running)
        ++ [Ev.pushResult] ++ progressEvs w.runId total total .completed
      (evs2 ++ loop.1 ++ csvStep.1 ++ evsSave,
        .ok ⟨w.code, w.codeType, loop.2 ++ csvStep.2.1⟩)

/-- Records pushed for one hrCockpit request: the handler pushes its result
on success; on failure crawlee hands the error to `failedRequestHandler`
(main.js lines 95-115), which pushes the error record instead. -/
inductive HrPushed
  | resultRec (r : HrResult)
  | errorRec (e : ErrorRecord)
deriving DecidableEq, Repr

/-- Dataset contents after an hrCockpit request finishes. -/
def hrRunRecords (url : String) (w : HrWorld)
    (out : List Ev × Except RunErr HrResult) : List HrPushed :=
  match out.2 with
  | .ok r => [.resultRec r]
  | .error e => [.errorRec (failedRequestRecord w.code w.codeType w.runId url e)]

/-- Step-counter pairs of a trace: `(current, total)` of every `logStep`. -/
def stepPairs (evs : List Ev) : List (Nat × Nat) :=
  evs.filterMap fun e =>
    match e with
    | .stepLog c t _ => some (c, t)
    | _ => none

/-- Counter pairs that violate `current ≤ total`, from both step logs and
progress updates. -/
def counterViolations (evs : List Ev) : List (Nat × Nat) :=
  evs.filterMap fun e =>
    match e with
    | .stepLog c t _ => if t < c then some (c, t) else none
    | .progress d t _ => if t < d then some (d, t) else none
    | _ => none

/-- Whether the trace touched the page (a click) or attempted a download. -/
def hasClickOrDownload (evs : List Ev) : Bool :=
  evs.any fun e =>
    match e with
    | .click _ => true
    | .download _ => true
    | _ => false

/-! ### Profiling Values handler (profilingValuesHandler.js lines 13-335) -/

/-- A report button inside `#report_box`: its label text and its embedded
`onclick` attribute. -/
structure PvButton where
  text : String
  onclick : String
deriving DecidableEq, Repr

/-- What the site does for one download attempt of a button: the awaited
response/download arrives carrying a payload (the JSON body for the
JSON-Report path, the suggested file name otherwise), or the wait fails. -/
inductive PvFetch
  | arrives (payload : String)
  | fails (msg : String)
deriving DecidableEq, Repr

/-- Mechanism used by one `downloadAndUpload` call. -/
structure DlEffects where
  /-- A `page.waitForResponse` listener was used. -/
  usedResponseListener : Bool
  /-- A `page.waitForEvent("download")` listener was used. -/
  usedDownloadEvent : Bool
  /-- The onclick script executed through `page.evaluate(eval(command))`. -/
  executedScript : Option String
  /-- The `setTimeout` delay inserted after the download, if any. -/
  delayAfterMs : Option Nat
  /-- Content type passed to `KeyValueStore.setValue`, if reached. -/
  storedContentType : Option String
deriving DecidableEq, Repr

/-- One report entry pushed by the profilingValues handler. -/
structure PvReport where
  name : String
  url : String
deriving DecidableEq, Repr

/-- `downloadAndUpload` (profilingValuesHandler.js lines 226-335): a button
labelled exactly JSON-Report is clicked and its `action=downloadJSON`
response body captured through a response listener; any other button has its
`onclick` script executed via `page.evaluate(eval(command))` under a
download-event listener, the saved file typed by `pvContentType`, and a
fixed 2000 ms delay appended. -/
def downloadAndUpload (storeId : String) (b : PvButton) (env : PvFetch) :
    Except String PvReport × DlEffects :=
  if b.text = "JSON-Report" then
    match env with
    | .arrives _body =>
      (.ok ⟨b.text, recordUrl storeId b.text⟩,
        ⟨true, false, none, none, some "application/json"⟩)
    | .fails m => (.error m, ⟨true, false, none, none, none⟩)
  else
    match env with
    | .arrives fn =>
      (.ok ⟨b.text, recordUrl storeId b.text⟩,
        ⟨false, true, some b.onclick, some 2000, some (pvContentType fn)⟩)
    | .fails m => (.error m, ⟨false, true, some b.onclick, none, none⟩)

/-- The `result` record the profilingValues handler persists. -/
structure PvResult where
  code : String
  codeType : String
  reports : List PvReport
deriving DecidableEq, Repr

/-- Abstracted environment of one profilingValues run. -/
structure PvWorld where
  code : String
  codeType : String
  runId : Option String
  user : Option String
  password : Option String
  /-- The initially enumerated `#report_box button[onclick*=reportbox_submit]`
  buttons. -/
  buttons : List PvButton
  /-- Number of buttons the re-query finds at loop iteration `i`. -/
  recount : Nat → Nat
  /-- Site behaviour for button `i`, attempt `att` (1-based). -/
  fetchAt : Nat → Nat → PvFetch

/-- STEP 5 download loop (lines 130-171): per iteration, bump the counter,
re-enumerate the buttons and abort the whole run when the count changed,
otherwise run the button through `pRetry` (5 retries, minTimeout 2000);
failures after retry exhaustion are logged and skipped. -/
def pvLoop (storeId : String) (runId : Option String) (buttons : List PvButton)
    (recount : Nat → Nat) (fetchAt : Nat → Nat → PvFetch) (bc total : Nat) :
    Nat → Nat → Nat → List Ev × Except RunErr (List PvReport)
  | 0, _i, _current => ([], .ok [])
  | remaining + 1, i, current =>
    let current' := current + 1
    let observed := recount i
    if observed = bc then
      let b := buttons.getD i ⟨"", ""⟩
      let evs1 := [Ev.stepLog current' total ("Download " ++ b.text),
        Ev.download b.text]
      let t := pRetry (fun att => (downloadAndUpload storeId b (fetchAt i att)).1)
        5 2000
      match t.result with
      | .ok r =>
        let tail := pvLoop storeId runId buttons recount fetchAt bc total
          remaining (i + 1) current'
        (evs1 ++ progressEvs runId current' total .running ++ tail.1,
          tail.2.map fun rs => r :: rs)
      | .error _ =>
        let tail := pvLoop storeId runId buttons recount fetchAt bc total
          remaining (i + 1) current'
        (evs1 ++ [Ev.errLog ("Download " ++ b.text)] ++ tail.1, tail.2)
    else
      ([], .error (.buttonCountChanged bc observed))

/-- `handleProfilingValues` (lines 13-221): four fixed steps with an initial
`totalSteps = 6`, recomputation `totalSteps = 4 + buttonCount` right after
button discovery (line 127), the download loop, and the save step. -/
def handleProfilingValues (storeId : String) (w : PvWorld) :
    List Ev × Except RunErr PvResult :=
  let evs1 := Ev.stepLog 1 6 "Login to Profiling Values" ::
    progressEvs w.runId 1 6 .running
  if credMissing w.user || credMissing w.password then
    (evs1 ++ [Ev.errLog ("Profiling Values processing for " ++ w.codeType)],
      .error (.missingCredentials w.codeType))
  else
    let evs2 := evs1 ++ [Ev.click "login-submit"]
      ++ (Ev.stepLog 2 6 "Search for code" :: progressEvs w.runId 2 6 .running)
      ++ (Ev.stepLog 3 6 "Navigate to reports" ::
        progressEvs w.runId 3 6 .running)
      ++ [Ev.click "PDF-Report icon"]
      ++ (Ev.stepLog 4 6 "Get available reports" ::
        progressEvs w.runId 4 6 .running)
    let bc := w.buttons.length
    let total := 4 + bc
    let loop := pvLoop storeId w.runId w.buttons w.recount w.fetchAt bc total
      bc 0 4
    match loop.2 with
    | .error e =>
      (evs2 ++ loop.1
        ++ [Ev.errLog ("Profiling Values processing for " ++ w.codeType)],
        .error e)
    | .ok reports =>
      let current' := 4 + bc + 1
      let evsSave := (Ev.stepLog current' total "Save results to dataset" ::
          progressEvs w.runId current' total .running)
        ++ [Ev.pushResult] ++ progressEvs w.runId total total .completed
      (evs2 ++ loop.1 ++ evsSave, .ok ⟨w.code, w.codeType, reports⟩)

/-- Records pushed for one profilingValues request (same dispatch as
`hrRunRecords`). -/
inductive PvPushed
  | resultRec (r : PvResult)
  | errorRec (e : ErrorRecord)
deriving DecidableEq, Repr

/-- Dataset contents after a profilingValues request finishes. -/
def pvRunRecords (url : String) (w : PvWorld)
    (out : List Ev × Except RunErr PvResult) : List PvPushed :=
  match out.2 with
  | .ok r => [.resultRec r]
  | .error e => [.errorRec (failedRequestRecord w.code w.codeType w.runId url e)]

/-! ### Profiling Values Soll handler (profilingValuesSollHandler.js,
embedded after loggingUtils.js as lines 134-371 of that file)

The page DOM is abstracted as the grid of `td` texts in document order (rows
of sibling cells) plus the rows of `#pat_table` (each a list of `td` texts).
-/

/-- Cell access `$(row).find("td").eq(k).text()`: out-of-range gives the
empty selection, whose text is empty. -/
def cellText (row : List String) (k : Nat) : String := row.getD k ""

/-- For one `tr`, the concatenated texts of the `td` immediately following
every `td` whose text contains the label — the row-local part of
`$("td:contains(label)").next("td").text()`. -/
def rowNextTexts (label : String) : List String → String
  | c :: c' :: rest =>
    (if hasSub c label then c' else "") ++ rowNextTexts label (c' :: rest)
  | _ => ""

/-- `$("td:contains(label)").next("td").text()` over the whole page: the
concatenation of the row-local matches in document order. -/
def metaLookup : List (List String) → String → String
  | [], _ => ""
  | row :: rest, label => rowNextTexts label row ++ metaLookup rest label

/-- `created`: text before the literal delimiter "von" (`split.shift`),
trimmed (lines 266-271). -/
def sollCreated (tdRows : List (List String)) : String :=
  jsTrim ((jsSplit (metaLookup tdRows "Erstellt") "von").headD "")

/-- `created_by`: text after the last "von" (`split.pop`), trimmed
(lines 272-277). -/
def sollCreatedBy (tdRows : List (List String)) : String :=
  jsTrim ((jsSplit (metaLookup tdRows "Erstellt") "von").getLastD "")

/-- `result.metadata` (lines 263-283). -/
structure SollMeta where
  code : String
  key : String
  created : String
  created_by : String
  pat_type : String
  company : String
  industry : String
  role : String
  modified : String
deriving DecidableEq, Repr

/-- Metadata extraction (lines 263-283). -/
def extractMetadata (code : String) (tdRows : List (List String)) : SollMeta :=
  { code := code
    key := metaLookup tdRows "Schlüssel"
    created := sollCreated tdRows
    created_by := sollCreatedBy tdRows
    pat_type := metaLookup tdRows "PAT-Typ"
    company := metaLookup tdRows "Firma"
    industry := metaLookup tdRows "Branche"
    role := metaLookup tdRows "Funktion"
    modified := metaLookup tdRows "Geändert" }

/-- One extracted data row: the source builds the score objects key by key
(`row.koennen.min = ...`), so they are embedded as ordered key-value lists,
preserving the key names the JavaScript object actually carries. -/
structure PatObj where
  definition : String
  koennen : List (String × JsNum)
  wollen : List (String × JsNum)
deriving DecidableEq, Repr

/-- The three scores read from columns 3, 4, 5 of a row (0-based `eq(2)`,
`eq(3)`, `eq(4)`), each trimmed and fed to `Number` (lines 292-306). -/
def mkScores (row : List String) : List (String × JsNum) :=
  [("min", jsNumber (jsTrim (cellText row 2))),
   ("max", jsNumber (jsTrim (cellText row 3))),
   ("mitte", jsNumber (jsTrim (cellText row 4)))]

/-- Tabular extraction over the post-header rows (lines 289-308): the loop
steps two rows at a time; `koennen` comes from the row itself, `wollen` from
`next("tr")` — the immediately following row, or the empty selection when
the table ends. -/
def extractPat : List (List String) → List PatObj
  | [] => []
  | [r1] => [⟨jsTrim (cellText r1 0), mkScores r1, mkScores []⟩]
  | r1 :: r2 :: rest =>
    ⟨jsTrim (cellText r1 0), mkScores r1, mkScores r2⟩ :: extractPat rest

/-- The record the Soll handler persists. -/
structure SollResult where
  code : String
  codeType : String
  metadata : SollMeta
  data : List PatObj
deriving DecidableEq, Repr

/-- Abstracted environment of one Soll run. -/
structure SollWorld where
  code : String
  codeType : String
  runId : Option String
  user : Option String
  password : Option String
  /-- All page rows of `td` texts (for the metadata queries). -/
  tdRows : List (List String)
  /-- The `#pat_table tr` rows, header included. -/
  patRows : List (List String)

/-- `handleProfilingValuesSoll` (lines 145-371): five steps with a fixed
`totalSteps = 5`; after the `#pat_container` wait, metadata and tabular data
are extracted from the served HTML (`slice(1)` skips the table header). -/
def handleProfilingValuesSoll (w : SollWorld) :
    List Ev × Except RunErr SollResult :=
  let evs1 := Ev.stepLog 1 5 "Login to Profiling Values" ::
    progressEvs w.runId 1 5 .running
  if credMissing w.user || credMissing w.password then
    (evs1 ++ [Ev.errLog ("Profiling Values Soll processing for " ++ w.codeType)],
      .error (.missingCredentials w.codeType))
  else
    let evs2 := evs1 ++ [Ev.click "login-submit"]
      ++ (Ev.stepLog 2 5 "Navigate to PAT administration" ::
        progressEvs w.runId 2 5 .running)
      ++ [Ev.click "PAT-Verwaltung"]
      ++ (Ev.stepLog 3 5 "Search for code" :: progressEvs w.runId 3 5 .running)
      ++ [Ev.click "Anzeigen"]
      ++ (Ev.stepLog 4 5 "Extract PAT data" :: progressEvs w.runId 4 5 .running)
    let metadata := extractMetadata w.code w.tdRows
    let data := extractPat (w.patRows.drop 1)
    let evs3 := progressEvs w.runId 4 5 .running
    let evsSave := (Ev.stepLog 5 5 "Save results to dataset" ::
        progressEvs w.runId 5 5 .running)
      ++ [Ev.pushResult] ++ progressEvs w.runId 5 5 .completed
    (evs2 ++ evs3 ++ evsSave, .ok ⟨w.code, w.codeType, metadata, data⟩)

/-! ## Lemmas about the retry wrappers -/

/-- A fixed-delay retry run that fails `m` times and then succeeds within its
fuel returns the success, logs `m` failures, and sleeps the same `delay`
between consecutive attempts. -/
theorem retryFixedGo_ok {A : Type} (op : Nat → Except String A) (delay : Nat)
    (a : A) :
    ∀ m start fuel, m < fuel → op (start + m) = .ok a →
      (∀ j, j < m → ∃ e, op (start + j) = .error e) →
      retryFixedGo op delay start fuel = ⟨.ok a, m, m + 1, List.replicate m delay⟩ := by
  intro m
  induction m with
  | zero =>
    intro start fuel hlt hok _
    obtain ⟨f, rfl⟩ : ∃ f, fuel = f + 1 := ⟨fuel - 1, by omega⟩
    rw [Nat.add_zero] at hok
    simp [retryFixedGo, hok]
  | succ m ih =>
    intro start fuel hlt hok hfail
    obtain ⟨f, rfl⟩ : ∃ f, fuel = f + 1 := ⟨fuel - 1, by omega⟩
    obtain ⟨e, he⟩ := hfail 0 (Nat.succ_pos m)
    rw [Nat.add_zero] at he
    have hf : ¬ f = 0 := by omega
    have ih' := ih (start + 1) f (by omega)
      (by rw [show start + 1 + m = start + (m + 1) by omega]; exact hok)
      (fun j hj => by
        obtain ⟨e', he'⟩ := hfail (j + 1) (by omega)
        exact ⟨e', by rw [show start + 1 + j = start + (j + 1) by omega]; exact he'⟩)
    simp [retryFixedGo, he, hf, ih', List.replicate_succ]

/-- A fixed-delay retry run whose `f + 1` allowed attempts all fail returns
the last error after exactly `f + 1` attempts. -/
theorem retryFixedGo_fail {A : Type} (op : Nat → Except String A) (delay : Nat) :
    ∀ f start, (∀ j, j ≤ f → ∃ e, op (start + j) = .error e) →
      ∃ e, op (start + f) = .error e ∧
        retryFixedGo op delay start (f + 1) =
          ⟨.error e, f + 1, f + 1, List.replicate f delay⟩ := by
  intro f
  induction f with
  | zero =>
    intro start hfail
    obtain ⟨e, he⟩ := hfail 0 (by omega)
    rw [Nat.add_zero] at he
    exact ⟨e, by rw [Nat.add_zero]; exact he, by simp [retryFixedGo, he]⟩
  | succ f ih =>
    intro start hfail
    obtain ⟨e0, he0⟩ := hfail 0 (by omega)
    rw [Nat.add_zero] at he0
    obtain ⟨e, he, heq⟩ := ih (start + 1)
      (fun j hj => by
        obtain ⟨e', he'⟩ := hfail (j + 1) (by omega)
        exact ⟨e', by rw [show start + 1 + j = start + (j + 1) by omega]; exact he'⟩)
    refine ⟨e, ?_, ?_⟩
    · rw [show start + (f + 1) = start + 1 + f by omega]
      exact he
    · set n := f + 1 with hn
      clear_value n
      have hn0 : ¬ n = 0 := by omega
      simp only [retryFixedGo, he0]
      rw [if_neg hn0, heq]
      have hrep : delay :: List.replicate f delay = List.replicate n delay := by
        rw [hn, List.replicate_succ]
      rw [hrep]

/-- Cons form of the exponential-backoff delay list. -/
theorem delayCons (minT m start : Nat) (hs : 1 ≤ start) :
    minT * 2 ^ (start - 1) :: ((List.range m).map fun j => minT * 2 ^ (start + j))
      = (List.range (m + 1)).map fun j => minT * 2 ^ (start - 1 + j) := by
  rw [List.range_succ_eq_map, List.map_cons, List.map_map]
  refine congrArg₂ List.cons ?_ ?_
  · rw [Nat.add_zero]
  · refine (List.map_congr_left ?_).symm
    intro j _
    simp only [Function.comp_apply]
    have hx : start - 1 + Nat.succ j = start + j := by omega
    rw [hx]

/-- A `pRetryGo` run that fails `m ≤ retriesLeft` times and then succeeds
returns the success, logs `m` failures, and backs off exponentially
(`minTimeout * 2 ^ (attempt - 1)`). -/
theorem pRetryGo_ok {A : Type} (op : Nat → Except String A) (minT : Nat)
    (a : A) :
    ∀ m start rl, 1 ≤ start → m ≤ rl → op (start + m) = .ok a →
      (∀ j, j < m → ∃ e, op (start + j) = .error e) →
      pRetryGo op minT 2 start rl =
        ⟨.ok a, m, m + 1, (List.range m).map fun j => minT * 2 ^ (start - 1 + j)⟩ := by
  intro m
  induction m with
  | zero =>
    intro start rl _ _ hok _
    rw [Nat.add_zero] at hok
    cases rl with
    | zero => simp [pRetryGo, hok]
    | succ rl' => simp [pRetryGo, hok]
  | succ m ih =>
    intro start rl hs hm hok hfail
    obtain ⟨rl', rfl⟩ : ∃ rl', rl = rl' + 1 := ⟨rl - 1, by omega⟩
    obtain ⟨e, he⟩ := hfail 0 (Nat.succ_pos m)
    rw [Nat.add_zero] at he
    have ih' := ih (start + 1) rl' (by omega) (by omega)
      (by rw [show start + 1 + m = start + (m + 1) by omega]; exact hok)
      (fun j hj => by
        obtain ⟨e', he'⟩ := hfail (j + 1) (by omega)
        exact ⟨e', by rw [show start + 1 + j = start + (j + 1) by omega]; exact he'⟩)
    have hd := delayCons minT m start hs
    simp only [Nat.add_sub_cancel] at ih'
    simp [pRetryGo, he, ih', hd]

/-- A `pRetryGo` run whose `retriesLeft + 1` attempts all fail returns the
last error after exactly `retriesLeft + 1` attempts. -/
theorem pRetryGo_fail {A : Type} (op : Nat → Except String A) (minT : Nat) :
    ∀ rl start, 1 ≤ start → (∀ j, j ≤ rl → ∃ e, op (start + j) = .error e) →
      ∃ e, op (start + rl) = .error e ∧
        pRetryGo op minT 2 start rl =
          ⟨.error e, rl + 1, rl + 1,
            (List.range rl).map fun j => minT * 2 ^ (start - 1 + j)⟩ := by
  intro rl
  induction rl with
  | zero =>
    intro start _ hfail
    obtain ⟨e, he⟩ := hfail 0 (by omega)
    rw [Nat.add_zero] at he
    exact ⟨e, by rw [Nat.add_zero]; exact he, by simp [pRetryGo, he]⟩
  | succ rl' ih =>
    intro start hs hfail
    obtain ⟨e0, he0⟩ := hfail 0 (by omega)
    rw [Nat.add_zero] at he0
    obtain ⟨e, he, heq⟩ := ih (start + 1) (by omega)
      (fun j hj => by
        obtain ⟨e', he'⟩ := hfail (j + 1) (by omega)
        exact ⟨e', by rw [show start + 1 + j = start + (j + 1) by omega]; exact he'⟩)
    have hd := delayCons minT rl' start hs
    simp only [Nat.add_sub_cancel] at heq
    refine ⟨e, ?_, ?_⟩
    · rw [show start + (rl' + 1) = start + 1 + rl' by omega]
      exact he
    · simp [pRetryGo, he0, heq, hd]

/-! ## Claim C2 -/

/-- Claim C2 (amended): for the hrCockpit wrappers (`downloadWithRetry`,
`downloadCSVWithRetry`, `maxRetries` total attempts), an operation failing on
attempts `1..k-1` and succeeding on attempt `k ≤ N` yields the attempt-`k`
result with exactly `k-1` logged failures and a fixed 2000 ms sleep between
attempts, and an operation failing on all `N` attempts re-raises the last
error with no further attempt.  The profilingValues report downloads,
however, run under `pRetry` with `retries = 5`, which makes up to
`retries + 1` total attempts and sleeps an exponentially growing
`minTimeout * 2 ^ (attempt - 1)` between attempts — not 5 fixed-delay
attempts as claimed. -/
theorem C2_retry_wrapper_amended {A : Type} (op : Nat → Except String A) :
    (∀ (a : A) (k N : Nat), 1 ≤ k → k ≤ N → op k = .ok a →
        (∀ i, 1 ≤ i → i < k → ∃ e, op i = .error e) →
        downloadWithRetry op N = ⟨.ok a, k - 1, k, List.replicate (k - 1) 2000⟩)
    ∧ (∀ N, 1 ≤ N → (∀ i, 1 ≤ i → i ≤ N → ∃ e, op i = .error e) →
        ∃ e, op N = .error e ∧
          downloadWithRetry op N = ⟨.error e, N, N, List.replicate (N - 1) 2000⟩)
    ∧ (∀ (a : A) (k retries minT : Nat), 1 ≤ k → k ≤ retries + 1 → op k = .ok a →
        (∀ i, 1 ≤ i → i < k → ∃ e, op i = .error e) →
        pRetry op retries minT =
          ⟨.ok a, k - 1, k, (List.range (k - 1)).map fun j => minT * 2 ^ j⟩)
    ∧ (∀ retries minT, (∀ i, 1 ≤ i → i ≤ retries + 1 → ∃ e, op i = .error e) →
        ∃ e, op (retries + 1) = .error e ∧
          pRetry op retries minT =
            ⟨.error e, retries + 1, retries + 1,
              (List.range retries).map fun j => minT * 2 ^ j⟩) := by
  have hshift : ∀ (k : Nat), (∀ i, 1 ≤ i → i < k → ∃ e, op i = .error e) →
      ∀ j, j < k - 1 → ∃ e, op (1 + j) = .error e := by
    intro k hfail j hj
    obtain ⟨e, he⟩ := hfail (j + 1) (by omega) (by omega)
    exact ⟨e, by rw [show 1 + j = j + 1 by omega]; exact he⟩
  have hshiftLe : ∀ (N : Nat), 1 ≤ N →
      (∀ i, 1 ≤ i → i ≤ N → ∃ e, op i = .error e) →
      ∀ j, j ≤ N - 1 → ∃ e, op (1 + j) = .error e := by
    intro N hN hfail j hj
    obtain ⟨e, he⟩ := hfail (j + 1) (by omega) (by omega)
    exact ⟨e, by rw [show 1 + j = j + 1 by omega]; exact he⟩
  have hexp : ∀ (m minT : Nat),
      ((List.range m).map fun j => minT * 2 ^ (1 - 1 + j))
        = (List.range m).map fun j => minT * 2 ^ j := by
    intro m minT
    refine List.map_congr_left ?_
    intro j _
    rw [show 1 - 1 + j = j by omega]
  refine ⟨?_, ?_, ?_, ?_⟩
  · intro a k N hk hkN hok hfail
    have h := retryFixedGo_ok op 2000 a (k - 1) 1 N (by omega)
      (by rw [show 1 + (k - 1) = k by omega]; exact hok) (hshift k hfail)
    rw [show k - 1 + 1 = k by omega] at h
    exact h
  · intro N hN hfail
    obtain ⟨e, he, heq⟩ := retryFixedGo_fail op 2000 (N - 1) 1 (hshiftLe N hN hfail)
    rw [show 1 + (N - 1) = N by omega] at he
    rw [show N - 1 + 1 = N by omega] at heq
    exact ⟨e, he, heq⟩
  · intro a k retries minT hk hkR hok hfail
    have h := pRetryGo_ok op minT a (k - 1) 1 retries (le_refl 1) (by omega)
      (by rw [show 1 + (k - 1) = k by omega]; exact hok) (hshift k hfail)
    rw [show k - 1 + 1 = k by omega, hexp (k - 1) minT] at h
    exact h
  · intro retries minT hfail
    obtain ⟨e, he, heq⟩ := pRetryGo_fail op minT retries 1 (le_refl 1)
      (fun j hj => by
        obtain ⟨e, he⟩ := hfail (j + 1) (by omega) (by omega)
        exact ⟨e, by rw [show 1 + j = j + 1 by omega]; exact he⟩)
    rw [show 1 + retries = retries + 1 by omega] at he
    rw [hexp retries minT] at heq
    exact ⟨e, he, heq⟩

/-- An operation that fails on its first five attempts and succeeds on the
sixth. -/
def opRetryCx : Nat → Except String Nat :=
  fun n => if n ≤ 5 then .error ("fail " ++ toString n) else .ok 42

/-- Claim C2 counterexample: the report-button wrapper
(`pRetry` with `retries = 5, minTimeout = 2000`) makes a SIXTH attempt after
five failures — returning its result instead of raising after the fifth —
and its sleeps grow exponentially instead of staying fixed. -/
theorem C2_retry_wrapper_counterexample :
    (pRetry opRetryCx 5 2000).attempts = 6
    ∧ (pRetry opRetryCx 5 2000).result = .ok 42
    ∧ (pRetry opRetryCx 5 2000).failures = 5
    ∧ (pRetry opRetryCx 5 2000).delays = [2000, 4000, 8000, 16000, 32000] := by
  decide

/-- An operation that fails twice, then succeeds. -/
def opRetryW : Nat → Except String Nat :=
  fun n => if n < 3 then .error "boom" else .ok 7

/-- Witness for C2: the amended statement applied to a concrete operation
failing on attempts 1-2 and succeeding on attempt 3. -/
theorem C2_retry_wrapper_witness :
    downloadWithRetry opRetryW 3 = ⟨.ok 7, 2, 3, List.replicate 2 2000⟩
    ∧ pRetry opRetryW 5 2000 =
        ⟨.ok 7, 2, 3, (List.range 2).map fun j => 2000 * 2 ^ j⟩ := by
  constructor
  · exact (C2_retry_wrapper_amended opRetryW).1 7 3 3 (by omega) (by omega)
      (by decide)
      (fun i h1 h2 => ⟨"boom", by simp only [opRetryW]; rw [if_pos h2]⟩)
  · exact (C2_retry_wrapper_amended opRetryW).2.2.1 7 3 5 2000 (by omega) (by omega)
      (by decide)
      (fun i h1 h2 => ⟨"boom", by simp only [opRetryW]; rw [if_pos h2]⟩)

/-! ## Claim C8 -/

/-- Claim C8: both progress-reporting calls catch every failure internally —
no input (missing configuration, network error, non-2xx response) makes them
raise to the caller — and a network error or non-2xx response is logged as an
error rather than propagated. -/
theorem C8_progress_errors_swallowed :
    (∀ u s f, (sendProgressUpdate u s f).raised = none)
    ∧ (∀ u s f, (sendErrorUpdate u s f).raised = none)
    ∧ (∀ u s m, truthy u = true → truthy s = true →
        (sendProgressUpdate u s (.netError m)).errorLogged = true
        ∧ (sendErrorUpdate u s (.netError m)).errorLogged = true)
    ∧ (∀ u s st, truthy u = true → truthy s = true → st < 200 ∨ 300 ≤ st →
        (sendProgressUpdate u s (.resp st)).errorLogged = true
        ∧ (sendErrorUpdate u s (.resp st)).errorLogged = true) := by
  refine ⟨?_, ?_, ?_, ?_⟩
  · intro u s f
    cases f <;> simp only [sendProgressUpdate] <;> split_ifs <;> rfl
  · intro u s f
    cases f <;> simp only [sendErrorUpdate] <;> split_ifs <;> rfl
  · intro u s m hu hs
    simp [sendProgressUpdate, sendErrorUpdate, hu, hs]
  · intro u s st hu hs hst
    have hcond : ¬ (200 ≤ st ∧ st < 300) := by omega
    simp [sendProgressUpdate, sendErrorUpdate, hu, hs, hcond]

/-- Witness for C8 at a configured endpoint: a 500 response and a network
error are logged, and neither call raises. -/
theorem C8_progress_errors_swallowed_witness :
    truthy (some "https://front") = true
    ∧ (sendProgressUpdate (some "https://front") (some "secret") (.resp 500)).errorLogged = true
    ∧ (sendErrorUpdate (some "https://front") (some "secret") (.netError "refused")).errorLogged = true
    ∧ (sendProgressUpdate (some "https://front") (some "secret") (.netError "refused")).raised = none := by
  refine ⟨by decide, ?_, ?_, ?_⟩
  · exact (C8_progress_errors_swallowed.2.2.2 (some "https://front") (some "secret") 500
      (by decide) (by decide) (by omega)).1
  · exact (C8_progress_errors_swallowed.2.2.1 (some "https://front") (some "secret") "refused"
      (by decide) (by decide)).2
  · exact C8_progress_errors_swallowed.1 (some "https://front") (some "secret") (.netError "refused")

/-! ## Claim C7 -/

/-- Claim C7: in `downloadAndUpload`, exactly the button labelled
`JSON-Report` is handled through a response listener with no download event,
no onclick-script execution and no trailing delay; every other button has its
embedded onclick script executed under a download-event listener, and a fixed
2000 ms delay follows each successful non-JSON download. -/
theorem C7_json_report_dispatch (storeId : String) (b : PvButton) (env : PvFetch) :
    ((downloadAndUpload storeId b env).2.usedResponseListener = true ↔
      b.text = "JSON-Report")
    ∧ ((downloadAndUpload storeId b env).2.usedDownloadEvent = true ↔
      ¬ b.text = "JSON-Report")
    ∧ (¬ b.text = "JSON-Report" →
        (downloadAndUpload storeId b env).2.executedScript = some b.onclick)
    ∧ (b.text = "JSON-Report" →
        (downloadAndUpload storeId b env).2.executedScript = none
        ∧ (downloadAndUpload storeId b env).2.delayAfterMs = none)
    ∧ (∀ payload, ¬ b.text = "JSON-Report" → env = .arrives payload →
        (downloadAndUpload storeId b env).2.delayAfterMs = some 2000) := by
  by_cases h : b.text = "JSON-Report" <;> cases env <;>
    simp [downloadAndUpload, h]

/-- A JSON-Report button and an ordinary report button. -/
def pvButtonJson : PvButton := ⟨"JSON-Report", "reportbox_submit(3)"⟩

/-- An ordinary (non-JSON) report button. -/
def pvButtonPdf : PvButton := ⟨"PDF-Report", "reportbox_submit(1)"⟩

/-- Witness for C7 on the two dispatch branches. -/
theorem C7_json_report_dispatch_witness :
    (downloadAndUpload "S" pvButtonJson (.arrives "body")).2.usedResponseListener = true
    ∧ (downloadAndUpload "S" pvButtonJson (.arrives "body")).2.delayAfterMs = none
    ∧ (downloadAndUpload "S" pvButtonPdf (.arrives "r.pdf")).2.executedScript
        = some "reportbox_submit(1)"
    ∧ (downloadAndUpload "S" pvButtonPdf (.arrives "r.pdf")).2.delayAfterMs = some 2000 := by
  refine ⟨?_, ?_, ?_, ?_⟩
  · exact (C7_json_report_dispatch "S" pvButtonJson (.arrives "body")).1.mpr (by decide)
  · exact ((C7_json_report_dispatch "S" pvButtonJson (.arrives "body")).2.2.2.1
      (by decide)).2
  · exact (C7_json_report_dispatch "S" pvButtonPdf (.arrives "r.pdf")).2.2.1 (by decide)
  · exact (C7_json_report_dispatch "S" pvButtonPdf (.arrives "r.pdf")).2.2.2.2
      "r.pdf" (by decide) rfl

/-! ## Claim C4 -/

/-- Claim C4 counterexample: the earlier hrCockpit `downloadWithRetry`
(lines 241-245) does NOT use the enumerated case-insensitive mapping — an
unknown extension maps to the presentation MIME type rather than
`application/octet-stream`, and an upper-case `.PDF` is not matched. -/
theorem C4_content_type_counterexample :
    hrContentTypeV1 "file.unknownext"
        = "application/vnd.openxmlformats-officedocument.presentationml.presentation"
    ∧ hrContentTypeV1 "file.unknownext" ≠ "application/octet-stream"
    ∧ hrContentTypeV1 "report.PDF" ≠ "application/pdf" := by decide

/-- Claim C4 (amended): the profilingValues download path and the later
hrCockpit `downloadWithRetry` share one fixed case-insensitive
extension-to-MIME mapping with the generic binary fallback, and behave as the
claim's examples require; only the earlier hrCockpit revision (lines 241-245)
deviates, deciding solely by a case-sensitive `endsWith("pdf")`. -/
theorem C4_content_type_amended :
    (∀ fileName, pvContentType fileName = hrContentTypeV2 fileName)
    ∧ pvContentType "report.PPTX"
        = "application/vnd.openxmlformats-officedocument.presentationml.presentation"
    ∧ pvContentType "file.unknownext" = "application/octet-stream"
    ∧ hrContentTypeV2 "report.PPTX"
        = "application/vnd.openxmlformats-officedocument.presentationml.presentation"
    ∧ hrContentTypeV2 "file.unknownext" = "application/octet-stream"
    ∧ hrContentTypeV1 "x.pdf" = "application/pdf"
    ∧ hrContentTypeV1 "x.other"
        = "application/vnd.openxmlformats-officedocument.presentationml.presentation" := by
  refine ⟨?_, by decide, by decide, by decide, by decide, by decide, by decide⟩
  intro fileName
  simp only [pvContentType, hrContentTypeV2]
  generalize extOf fileName = e
  by_cases h1 : e = "csv"
  · subst h1; decide
  by_cases h2 : e = "pdf"
  · subst h2; decide
  by_cases h3 : e = "pptx"
  · subst h3; decide
  by_cases h4 : e = "ppt"
  · subst h4; decide
  by_cases h5 : e = "xlsx"
  · subst h5; decide
  by_cases h6 : e = "xls"
  · subst h6; decide
  by_cases h7 : e = "docx"
  · subst h7; decide
  by_cases h8 : e = "doc"
  · subst h8; decide
  by_cases h9 : e = "json"
  · subst h9; decide
  by_cases h10 : e = "txt"
  · subst h10; decide
  by_cases h11 : e = "xml"
  · subst h11; decide
  by_cases h12 : e = "html"
  · subst h12; decide
  by_cases h13 : e = "htm"
  · subst h13; decide
  simp [h1, h2, h3, h4, h5, h6, h7, h8, h9, h10, h11, h12, h13]

/-! ## Claim C5 -/

/-- Row 1 of the claim's example pair. -/
def c5row1 : List String := ["Skill A", "_", "1", "5", "3"]

/-- Row 2 of the claim's example pair. -/
def c5row2 : List String := ["_", "_", "2", "4", "3"]

/-- A Soll world whose PAT table holds a header row and the example pair. -/
def c5world : SollWorld :=
  { code := "PAT1", codeType := "PROFILING_VALUES_SOLL", runId := none
    user := some "u", password := some "p"
    tdRows := []
    patRows := [["Definition", "x", "Min", "Max", "Mitte"], c5row1, c5row2] }

/-- Claim C5 counterexample: the record extracted from the example pair has
no `mid` key — the source stores the middle score under the key `mitte`
(`row.koennen.mitte = Number(...)`), so the claimed record shape
`{min, max, mid}` does not match the produced object. -/
theorem C5_pat_extraction_counterexample :
    (extractPat [c5row1, c5row2]).map (fun r => List.lookup "mid" r.koennen) = [none]
    ∧ (extractPat [c5row1, c5row2]).map (fun r => List.lookup "mid" r.wollen) = [none]
    ∧ (extractPat [c5row1, c5row2]).map (fun r => List.lookup "mitte" r.koennen)
        = [some (.num 3)] := by decide

/-- Claim C5 (amended): the header row is skipped, remaining rows are walked
two at a time, and each pair yields one record whose `definition` is the
trimmed first cell of row one and whose koennen/wollen `min`, `max` and
middle values are the numeric parses of cells 3, 4, 5 of rows one and two —
with the middle value stored under the key `mitte`, not `mid`.  On the
claim's example the handler extracts exactly that record. -/
theorem C5_pat_extraction_amended :
    (handleProfilingValuesSoll c5world).2
      = .ok ⟨"PAT1", "PROFILING_VALUES_SOLL",
          ⟨"PAT1", "", "", "", "", "", "", "", ""⟩,
          [⟨"Skill A",
            [("min", .num 1), ("max", .num 5), ("mitte", .num 3)],
            [("min", .num 2), ("max", .num 4), ("mitte", .num 3)]⟩]⟩
    ∧ (∀ w : SollWorld, credMissing w.user = false → credMissing w.password = false →
        (handleProfilingValuesSoll w).2
          = .ok ⟨w.code, w.codeType, extractMetadata w.code w.tdRows,
              extractPat (w.patRows.drop 1)⟩)
    ∧ (∀ r1 r2 rest, extractPat (r1 :: r2 :: rest)
        = ⟨jsTrim (cellText r1 0), mkScores r1, mkScores r2⟩ :: extractPat rest) := by
  refine ⟨by decide, ?_, fun r1 r2 rest => rfl⟩
  intro w hu hp
  simp [handleProfilingValuesSoll, hu, hp]

/-- Witness for C5: the general pipeline clause applied to the example
world. -/
theorem C5_pat_extraction_witness :
    credMissing c5world.user = false
    ∧ (handleProfilingValuesSoll c5world).2
        = .ok ⟨c5world.code, c5world.codeType,
            extractMetadata c5world.code c5world.tdRows,
            extractPat (c5world.patRows.drop 1)⟩ :=
  ⟨by decide, C5_pat_extraction_amended.2.1 c5world (by decide) (by decide)⟩

/-! ## Claim C6 -/

/-- No cell of the page contains the label (the `:contains` selector is
empty). -/
def labelAbsent (tdRows : List (List String)) (label : String) : Bool :=
  tdRows.all fun row => row.all fun c => !(hasSub c label)

/-- A row with no cell containing the label contributes nothing to the
`next("td")` concatenation. -/
theorem rowNextTexts_nil_of_absent (label : String) :
    ∀ row : List String, (row.all fun c => !(hasSub c label)) = true →
      rowNextTexts label row = ""
  | [], _ => rfl
  | [_], _ => rfl
  | c :: c' :: rest, h => by
    rw [List.all_cons, Bool.and_eq_true] at h
    obtain ⟨h1, h2⟩ := h
    have h1' : hasSub c label = false := by simpa using h1
    have h2' := rowNextTexts_nil_of_absent label (c' :: rest) h2
    simp [rowNextTexts, h1', h2']

/-- A missing label yields the empty string from the metadata lookup. -/
theorem metaLookup_nil_of_absent (label : String) :
    ∀ tdRows, labelAbsent tdRows label = true → metaLookup tdRows label = ""
  | [], _ => rfl
  | row :: rest, h => by
    simp only [labelAbsent, List.all_cons, Bool.and_eq_true] at h
    obtain ⟨h1, h2⟩ := h
    have hr := rowNextTexts_nil_of_absent label row h1
    have hm := metaLookup_nil_of_absent label rest h2
    simp [metaLookup, hr, hm]

/-- A Soll world whose Erstellt cell carries the claim's example text. -/
def c6world : SollWorld :=
  { code := "C6", codeType := "PROFILING_VALUES_SOLL", runId := none
    user := some "u", password := some "p"
    tdRows := [["Erstellt", "2024-01-01 von Jane Doe"], ["Schlüssel", "K1"]]
    patRows := [] }

/-- Claim C6: the Erstellt cell text is split on the literal delimiter "von",
the trimmed left part becoming `created` and the trimmed right part
`created_by` (on the example, "2024-01-01" and "Jane Doe"); any labelled cell
missing from the page yields an empty-string value instead of a failure. -/
theorem C6_erstellt_split :
    ((handleProfilingValuesSoll c6world).2.map fun r =>
        (r.metadata.created, r.metadata.created_by, r.metadata.key))
      = .ok ("2024-01-01", "Jane Doe", "K1")
    ∧ (∀ tdRows label, labelAbsent tdRows label = true →
        metaLookup tdRows label = "")
    ∧ (∀ tdRows, labelAbsent tdRows "Erstellt" = true →
        sollCreated tdRows = "" ∧ sollCreatedBy tdRows = "") := by
  refine ⟨by decide,
    fun tdRows label h => metaLookup_nil_of_absent label tdRows h, ?_⟩
  intro tdRows h
  have h1 := metaLookup_nil_of_absent "Erstellt" tdRows h
  constructor
  · unfold sollCreated
    rw [h1]
    decide
  · unfold sollCreatedBy
    rw [h1]
    decide

/-- Witness for C6: a page without the labelled cells yields empty-string
metadata values. -/
theorem C6_erstellt_split_witness :
    labelAbsent [["Firma", "ACME"]] "Erstellt" = true
    ∧ metaLookup [["Firma", "ACME"]] "Geändert" = ""
    ∧ sollCreated [["Firma", "ACME"]] = "" := by
  refine ⟨by decide, ?_, ?_⟩
  · exact C6_erstellt_split.2.1 [["Firma", "ACME"]] "Geändert" (by decide)
  · exact (C6_erstellt_split.2.2 [["Firma", "ACME"]] (by decide)).1

/-! ## Claim C3 -/

/-- Claim C3: a listing with zero rows matching the code makes the hrCockpit
run fail with the code-not-found error (no retry wraps this check), and the
pushed record is the failed-request error record carrying the original code
and codeType — no result record is pushed. -/
theorem C3_code_not_found (cfg : VariantConfig) (storeId url : String)
    (w : HrWorld) (hu : credMissing w.user = false)
    (hp : credMissing w.password = false) (h0 : w.codeRowCount = 0) :
    (handleHRCockpit cfg storeId w).2 = .error (.codeNotFound w.code)
    ∧ hrRunRecords url w (handleHRCockpit cfg storeId w)
        = [.errorRec ⟨url, runErrMsg (.codeNotFound w.code), w.code, w.codeType,
            w.runId⟩] := by
  have h2 : (handleHRCockpit cfg storeId w).2 = .error (.codeNotFound w.code) := by
    simp [handleHRCockpit, hu, hp, h0]
  exact ⟨h2, by simp [hrRunRecords, h2, failedRequestRecord]⟩

/-- An hrCockpit world whose listing holds no row for the code. -/
def hrWorld3 : HrWorld :=
  { code := "NOPE", codeType := "HR_COCKPIT", runId := some "rid"
    user := some "u", password := some "p", codeRowCount := 0
    links := [], csv := fun _ => .error "unreached" }

/-- Witness for C3 at a concrete empty listing. -/
theorem C3_code_not_found_witness :
    credMissing hrWorld3.user = false
    ∧ hrWorld3.codeRowCount = 0
    ∧ (handleHRCockpit hrCockpitConfig "S" hrWorld3).2
        = .error (.codeNotFound "NOPE")
    ∧ hrRunRecords "https://wle2.constant-dialog.ch/admin.php" hrWorld3
        (handleHRCockpit hrCockpitConfig "S" hrWorld3)
        = [.errorRec ⟨"https://wle2.constant-dialog.ch/admin.php",
            runErrMsg (.codeNotFound "NOPE"), "NOPE", "HR_COCKPIT", some "rid"⟩] := by
  refine ⟨by decide, by decide, ?_, ?_⟩
  · exact (C3_code_not_found hrCockpitConfig "S"
      "https://wle2.constant-dialog.ch/admin.php" hrWorld3
      (by decide) (by decide) (by decide)).1
  · exact (C3_code_not_found hrCockpitConfig "S"
      "https://wle2.constant-dialog.ch/admin.php" hrWorld3
      (by decide) (by decide) (by decide)).2

/-! ## Claim C9 -/

/-- Claim C9: when either credential variable for the selected variant is
unset or empty, the run fails with the missing-credentials error at the login
step, before any page click and before any download attempt — in both the
hrCockpit handler and the Soll handler the claim cites. -/
theorem C9_missing_credentials (cfg : VariantConfig) (storeId : String)
    (w : HrWorld) (w2 : SollWorld)
    (h : (credMissing w.user || credMissing w.password) = true)
    (h2 : (credMissing w2.user || credMissing w2.password) = true) :
    ((handleHRCockpit cfg storeId w).2 = .error (.missingCredentials w.codeType)
      ∧ hasClickOrDownload (handleHRCockpit cfg storeId w).1 = false)
    ∧ ((handleProfilingValuesSoll w2).2 = .error (.missingCredentials w2.codeType)
      ∧ hasClickOrDownload (handleProfilingValuesSoll w2).1 = false) := by
  cases htr : truthy w.runId <;> cases htr2 : truthy w2.runId <;>
    simp [handleHRCockpit, handleProfilingValuesSoll, h, h2,
      hasClickOrDownload, progressEvs, htr, htr2]

/-- An hrCockpit world with an unset user credential. -/
def hrWorld9 : HrWorld :=
  { code := "X", codeType := "HR_COCKPIT_SOLL", runId := none
    user := none, password := some "p", codeRowCount := 5
    links := [], csv := fun _ => .error "unreached" }

/-- A Soll world with an empty user credential. -/
def sollWorld9 : SollWorld :=
  { code := "X", codeType := "PROFILING_VALUES_SOLL", runId := some "r"
    user := some "", password := some "pw", tdRows := [], patRows := [] }

/-- Witness for C9: an unset variable and an empty variable both abort at
login with no click and no download. -/
theorem C9_missing_credentials_witness :
    (credMissing hrWorld9.user || credMissing hrWorld9.password) = true
    ∧ (credMissing sollWorld9.user || credMissing sollWorld9.password) = true
    ∧ (handleHRCockpit hrCockpitSollConfig "S" hrWorld9).2
        = .error (.missingCredentials "HR_COCKPIT_SOLL")
    ∧ hasClickOrDownload (handleHRCockpit hrCockpitSollConfig "S" hrWorld9).1 = false
    ∧ (handleProfilingValuesSoll sollWorld9).2
        = .error (.missingCredentials "PROFILING_VALUES_SOLL")
    ∧ hasClickOrDownload (handleProfilingValuesSoll sollWorld9).1 = false := by
  refine ⟨by decide, by decide, ?_, ?_, ?_, ?_⟩
  · exact (C9_missing_credentials hrCockpitSollConfig "S" hrWorld9 sollWorld9
      (by decide) (by decide)).1.1
  · exact (C9_missing_credentials hrCockpitSollConfig "S" hrWorld9 sollWorld9
      (by decide) (by decide)).1.2
  · exact (C9_missing_credentials hrCockpitSollConfig "S" hrWorld9 sollWorld9
      (by decide) (by decide)).2.1
  · exact (C9_missing_credentials hrCockpitSollConfig "S" hrWorld9 sollWorld9
      (by decide) (by decide)).2.2

/-! ## Claim C1 -/

/-- A nominal hrCockpit run: credentials set, one matching row, three DE
links whose downloads all succeed, CSV export enabled and succeeding. -/
def hrWorld1 : HrWorld :=
  { code := "ABC123", codeType := "HR_COCKPIT", runId := some "r1"
    user := some "u", password := some "p", codeRowCount := 1
    links := [fun _ => .ok "f1.pdf", fun _ => .ok "f2.pptx", fun _ => .ok "f3.pdf"]
    csv := fun _ => .ok "eval.csv" }

/-- A nominal profilingValues run with two report buttons (the first failing
every attempt, the second a JSON report). -/
def pvWorld1 : PvWorld :=
  { code := "C", codeType := "PROFILING_VALUES", runId := some "r"
    user := some "u", password := some "p"
    buttons := [⟨"B0", "reportbox_submit(0)"⟩, ⟨"JSON-Report", "reportbox_submit(1)"⟩]
    recount := fun _ => 2
    fetchAt := fun i _att => if i = 0 then .fails "timeout" else .arrives "body" }

/-- Claim C1 fails on the code: in a nominal HR_COCKPIT run with 3 download
links and CSV enabled, after `totalSteps` is recomputed to 9 the save step
logs and reports `current = 10 > 9`; a PROFILING_VALUES run with 2 buttons
likewise ends with `current = 7 > total = 6`.  The recomputation
`4 + downloads + csv + save` forgets that five fixed steps were already
counted (the loop comments claim four), so the final step always exceeds the
recomputed total by one. -/
theorem C1_step_counter_exceeds_total :
    stepPairs (handleHRCockpit hrCockpitConfig "S" hrWorld1).1
      = [(1, 8), (2, 8), (3, 8), (4, 8), (5, 8), (6, 9), (7, 9), (8, 9), (9, 9),
         (10, 9)]
    ∧ counterViolations (handleHRCockpit hrCockpitConfig "S" hrWorld1).1
      = [(10, 9), (10, 9)]
    ∧ stepPairs (handleProfilingValues "S" pvWorld1).1
      = [(1, 6), (2, 6), (3, 6), (4, 6), (5, 6), (6, 6), (7, 6)]
    ∧ counterViolations (handleProfilingValues "S" pvWorld1).1
      = [(7, 6), (7, 6)] := by decide

/-! ## Claim C10 -/

/-- If the re-enumerated button count first differs from the initial count at
iteration `j` of the download loop, the loop aborts with the
button-count-changed error. -/
theorem pvLoop_abort (storeId : String) (runId : Option String)
    (buttons : List PvButton) (recount : Nat → Nat)
    (fetchAt : Nat → Nat → PvFetch) (bc total : Nat) :
    ∀ remaining i current j, i ≤ j → j < i + remaining →
      (∀ l, i ≤ l → l < j → recount l = bc) → ¬ recount j = bc →
      (pvLoop storeId runId buttons recount fetchAt bc total remaining i current).2
        = .error (.buttonCountChanged bc (recount j)) := by
  intro remaining
  induction remaining with
  | zero => intro i current j h1 h2 _ _; omega
  | succ rem ih =>
    intro i current j h1 h2 hpre hne
    by_cases hobs : recount i = bc
    · have hij : i < j := by
        rcases Nat.lt_or_ge i j with hlt | hge
        · exact hlt
        · exfalso
          have hj : j = i := by omega
          rw [hj] at hne
          exact hne hobs
      have ihx := ih (i + 1) (current + 1) j (by omega) (by omega)
        (fun l hl1 hl2 => hpre l (by omega) hl2) hne
      simp only [pvLoop]
      rw [if_pos hobs]
      split
      · simp [ihx, Except.map]
      · simp [ihx]
    · have hji : j = i := by
        rcases Nat.lt_or_ge i j with hlt | hge
        · exact absurd (hpre i (le_refl i) hlt) hobs
        · omega
      simp only [pvLoop]
      rw [if_neg hobs, hji]

/-- If every re-enumeration sees the initial count, the loop finishes with a
list of successfully downloaded reports (failed buttons merely skipped). -/
theorem pvLoop_ok (storeId : String) (runId : Option String)
    (buttons : List PvButton) (recount : Nat → Nat)
    (fetchAt : Nat → Nat → PvFetch) (bc total : Nat) :
    ∀ remaining i current,
      (∀ l, i ≤ l → l < i + remaining → recount l = bc) →
      ∃ rs, (pvLoop storeId runId buttons recount fetchAt bc total remaining
          i current).2 = .ok rs := by
  intro remaining
  induction remaining with
  | zero => intro i current _; exact ⟨[], rfl⟩
  | succ rem ih =>
    intro i current hall
    have hobs : recount i = bc := hall i (le_refl i) (by omega)
    obtain ⟨rs, hrs⟩ := ih (i + 1) (current + 1)
      (fun l hl1 hl2 => hall l (by omega) (by omega))
    simp only [pvLoop]
    rw [if_pos hobs]
    split
    · rename_i r heq
      exact ⟨r :: rs, by simp [hrs, Except.map]⟩
    · exact ⟨rs, by simp [hrs]⟩

/-- Claim C10: before each report download the buttons are re-enumerated; the
first deviation from the initially discovered count aborts the whole run with
an error and the pushed record is the error record (no result record), while
matching re-enumerations always let the run finish and persist a result —
even when individual button downloads exhaust their retries, as in the
concrete run of the last conjunct, which skips the failing button, logs it,
and still persists the remaining report. -/
theorem C10_button_recount_abort (storeId url : String) (w : PvWorld)
    (hu : credMissing w.user = false) (hp : credMissing w.password = false) :
    (∀ j, j < w.buttons.length →
      (∀ l, l < j → w.recount l = w.buttons.length) →
      ¬ w.recount j = w.buttons.length →
      (handleProfilingValues storeId w).2
          = .error (.buttonCountChanged w.buttons.length (w.recount j))
        ∧ pvRunRecords url w (handleProfilingValues storeId w)
          = [.errorRec ⟨url,
              runErrMsg (.buttonCountChanged w.buttons.length (w.recount j)),
              w.code, w.codeType, w.runId⟩])
    ∧ ((∀ l, l < w.buttons.length → w.recount l = w.buttons.length) →
      ∃ rs, (handleProfilingValues storeId w).2 = .ok ⟨w.code, w.codeType, rs⟩
        ∧ pvRunRecords url w (handleProfilingValues storeId w)
          = [.resultRec ⟨w.code, w.codeType, rs⟩])
    ∧ ((handleProfilingValues "S" pvWorld1).2
        = .ok ⟨"C", "PROFILING_VALUES",
            [⟨"JSON-Report", recordUrl "S" "JSON-Report"⟩]⟩
      ∧ ((handleProfilingValues "S" pvWorld1).1.any
          fun e => e = Ev.errLog "Download B0") = true) := by
  refine ⟨?_, ?_, by decide, by decide⟩
  · intro j hj hpre hne
    have habort := pvLoop_abort storeId w.runId w.buttons w.recount w.fetchAt
      w.buttons.length (4 + w.buttons.length) w.buttons.length 0 4 j
      (by omega) (by omega) (fun l _ hl2 => hpre l hl2) hne
    have hres : (handleProfilingValues storeId w).2
        = .error (.buttonCountChanged w.buttons.length (w.recount j)) := by
      simp [handleProfilingValues, hu, hp, habort]
    exact ⟨hres, by simp [pvRunRecords, hres, failedRequestRecord]⟩
  · intro hall
    obtain ⟨rs, hrs⟩ := pvLoop_ok storeId w.runId w.buttons w.recount w.fetchAt
      w.buttons.length (4 + w.buttons.length) w.buttons.length 0 4
      (fun l _ hl2 => hall l (by omega))
    have hres : (handleProfilingValues storeId w).2
        = .ok ⟨w.code, w.codeType, rs⟩ := by
      simp [handleProfilingValues, hu, hp, hrs]
    exact ⟨rs, hres, by simp [pvRunRecords, hres]⟩

/-- A profilingValues world whose re-enumeration at iteration 1 sees three
buttons instead of the two initially found. -/
def pvWorld10 : PvWorld :=
  { code := "C10", codeType := "PROFILING_VALUES", runId := some "r"
    user := some "u", password := some "p"
    buttons := [⟨"A", "s0"⟩, ⟨"B", "s1"⟩]
    recount := fun i => if i = 0 then 2 else 3
    fetchAt := fun _ _ => .arrives "f.pdf" }

/-- Witness for C10: the abort branch at a concrete changed recount. -/
theorem C10_button_recount_abort_witness :
    ¬ pvWorld10.recount 1 = pvWorld10.buttons.length
    ∧ (handleProfilingValues "S" pvWorld10).2
        = .error (.buttonCountChanged 2 3)
    ∧ pvRunRecords "u10" pvWorld10 (handleProfilingValues "S" pvWorld10)
        = [.errorRec ⟨"u10", runErrMsg (.buttonCountChanged 2 3), "C10",
            "PROFILING_VALUES", some "r"⟩] := by
  refine ⟨by decide, ?_, ?_⟩
  · exact ((C10_button_recount_abort "S" "u10" pvWorld10 (by decide) (by decide)).1
      1 (by decide)
      (fun l hl => by
        have hl0 : l = 0 := by omega
        rw [hl0]
        decide)
      (by decide)).1
  · exact ((C10_button_recount_abort "S" "u10" pvWorld10 (by decide) (by decide)).1
      1 (by decide)
      (fun l hl => by
        have hl0 : l = 0 := by omega
        rw [hl0]
        decide)
      (by decide)).2

end UnifiedScraper
